import Mathlib

/-!
Verification of `update_chromedriver.py` (repository foreveryuu/update_chromedriver).

The program is a linear pipeline: resolve a platform tag from the host OS,
fetch a JSON version manifest and scan it for the first entry whose version
string starts with a given version prefix and which offers a chromedriver
download for the resolved platform, download and extract that archive, walk
the extraction directory for the first file named `chromedriver*`, and clean
up the archive on the success path.

The embedding below is a shallow model of the script: network and filesystem
effects are passed in as explicit outcome values, exceptions are modelled with
`Except`, and the `try`/`except` structure of the two functions is translated
handler by handler.
-/

namespace UpdateChromedriver

/-- Model of Python `list` prefix test on characters: `listIsPrefix p s` is
true iff `s` starts with `p` character for character. Used to model
`str.startswith`. -/
def listIsPrefix : List Char → List Char → Bool
  | [], _ => true
  | _ :: _, [] => false
  | a :: as, b :: bs => a == b && listIsPrefix as bs

/-- Model of contiguous-substring containment on characters, used to model
the Python `in` operator on strings: `listIsInfix p s` is true iff `p`
occurs contiguously inside `s`. -/
def listIsInfix (p : List Char) : List Char → Bool
  | [] => listIsPrefix p []
  | b :: bs => listIsPrefix p (b :: bs) || listIsInfix p bs

/-- Python `s.startswith(p)`. -/
def pyStartsWith (s p : String) : Bool := listIsPrefix p.toList s.toList

/-- Python `p in s` for strings (contiguous substring containment). -/
def pyContains (s p : String) : Bool := listIsInfix p.toList s.toList

/-- The Python exceptions the script can raise or catch, as relevant here.
All constructors model subclasses of Python `Exception`, so the script's
`except Exception` handler catches every one of them. -/
inductive PyExc where
  | runtimeError (msg : String)
  | requestException
  | badZipFile
  | generic
deriving DecidableEq, Repr

/-- `get_platform_name` (src/update_chromedriver.py:34-44): maps the host OS
identifier (`platform.system()`) to a manifest platform tag, raising
`RuntimeError` for any unrecognized OS. -/
def get_platform_name (system : String) : Except PyExc String :=
  if system = "Windows" then .ok "win32"
  else if system = "Darwin" then .ok "mac-arm64"
  else if system = "Linux" then .ok "linux64"
  else .error (.runtimeError ("不支持的操作系统: " ++ system))

/-- One element of `version_info['downloads']['chromedriver']`. -/
structure Download where
  platform : String
  url : String
deriving DecidableEq, Repr

/-- One element of `data['versions']`: a version string and its chromedriver
download list. -/
structure VersionEntry where
  version : String
  chromedriver : List Download
deriving DecidableEq, Repr

/-- The parsed manifest JSON: `{ "versions": [...] }`. -/
structure Manifest where
  versions : List VersionEntry
deriving DecidableEq, Repr

/-- The inner loop of `fetch_closest_chromedriver_url`
(src/update_chromedriver.py:59-62): first download in list order whose
`platform` field contains the resolved platform name as a substring. -/
def findDownload (platform_name : String) : List Download → Option Download
  | [] => none
  | d :: ds =>
    if pyContains d.platform platform_name then some d
    else findDownload platform_name ds

/-- The outer loop of `fetch_closest_chromedriver_url`
(src/update_chromedriver.py:57-62): scan the manifest in order; on the first
entry whose version string starts with the prefix and which has a
platform-matching chromedriver download, return that download's url together
with the entry's version. -/
def lookupDriver (pfx platform_name : String) : List VersionEntry → Option (String × String)
  | [] => none
  | e :: es =>
    if pyStartsWith e.version pfx then
      match findDownload platform_name e.chromedriver with
      | some d => some (d.url, e.version)
      | none => lookupDriver pfx platform_name es
    else lookupDriver pfx platform_name es

/-- The progress and error reports the script prints. -/
inductive Msg where
  | platformName (tag : String)
  | foundUrl (url : String)
  | notFound
  | requestError
  | genericError
  | noDriverFound (pfx : String)
  | downloading (v : String)
  | downloadOk (v : String)
  | extracting (v : String)
  | driverPath (p : String)
  | noExecutableFound
  | downloadError
  | badZipError
deriving DecidableEq, Repr

/-- Outcome of the manifest GET + JSON parse: the request itself fails
(`requests.RequestException`), the body is malformed JSON (`.json()` raises a
generic exception), or a parsed manifest is obtained. -/
inductive ManifestFetch where
  | netError
  | badJson
  | ok (m : Manifest)
deriving Repr

/-- The body of the `try` block of `fetch_closest_chromedriver_url`
(src/update_chromedriver.py:50-63): GET, `raise_for_status`, `.json()`, then
`get_platform_name()` (whose `RuntimeError` propagates out of the body), then
the manifest scan. Returns the printed messages and the optional match. -/
def fetch_try (system pfx : String) (mf : ManifestFetch) :
    Except PyExc (List Msg × Option (String × String)) :=
  match mf with
  | .netError => .error .requestException
  | .badJson => .error .generic
  | .ok m =>
    match get_platform_name system with
    | .error e => .error e
    | .ok tag =>
      match lookupDriver pfx tag m.versions with
      | some (url, v) => .ok ([.platformName tag, .foundUrl url], some (url, v))
      | none => .ok ([.platformName tag, .notFound], none)

/-- `fetch_closest_chromedriver_url` (src/update_chromedriver.py:46-68): the
`try` body wrapped in its two handlers — `except requests.RequestException`
prints a request error, `except Exception` prints a generic error — followed
by `return None, None`. Every `PyExc` models a Python `Exception` subclass,
so the second handler catches everything the first one missed. -/
def fetch_closest_chromedriver_url (system pfx : String) (mf : ManifestFetch) :
    List Msg × Option (String × String) :=
  match fetch_try system pfx mf with
  | .ok r => r
  | .error .requestException => ([.requestError], none)
  | .error _ => ([.genericError], none)

/-- One step of `os.walk` over the extraction directory: a subdirectory
(given relative to the extraction root, `""` standing for the root itself)
together with its file names in listing order. -/
structure WalkDir where
  rel : String
  files : List String
deriving DecidableEq, Repr

/-- Outcome of opening and extracting the downloaded archive:
`zipfile.BadZipFile` at open, some other exception during extraction or the
walk, or a successful extraction whose contents `os.walk` reports as the
given directory list. -/
inductive Extraction where
  | badZip
  | ioError
  | ok (walk : List WalkDir)
deriving Repr

/-- Outcome of the driver-archive GET: request failure
(`requests.RequestException`, covering network errors and non-2xx via
`raise_for_status`) before anything is written, or archive bytes obtained
and written, after which extraction proceeds. -/
inductive DriverFetch where
  | netError
  | ok (ext : Extraction)
deriving Repr

/-- `os.path.join` for a relative second component. -/
def pathJoin (a b : String) : String := a ++ "/" ++ b

/-- `zip_path` (src/update_chromedriver.py:78): the versioned archive path
inside the script's own directory. -/
def zip_path (base_path v : String) : String :=
  pathJoin base_path ("chromedriver_" ++ v ++ ".zip")

/-- `extract_dir` (src/update_chromedriver.py:79): the versioned extraction
directory inside the script's own directory. -/
def extract_dir (base_path v : String) : String :=
  pathJoin base_path ("chromedriver_" ++ v)

/-- Absolute root of a walk step: `os.walk` yields the extraction directory
itself first (`rel = ""`) and joined subdirectory paths after. -/
def walkRoot (dir : String) (w : WalkDir) : String :=
  if w.rel = "" then dir else pathJoin dir w.rel

/-- The walk loop of `download_and_update_chromedriver`
(src/update_chromedriver.py:93-100): first file in walk order whose name
starts with `"chromedriver"`, returned as `os.path.join(root, file)`. -/
def findDriverFile (dir : String) : List WalkDir → Option String
  | [] => none
  | w :: ws =>
    match w.files.find? (fun f => pyStartsWith f "chromedriver") with
    | some f => some (pathJoin (walkRoot dir w) f)
    | none => findDriverFile dir ws

/-- Filesystem state left behind by a run: the archive path if the zip is
still on disk at the end, and the extraction directory if it was created. -/
structure FS where
  zip : Option String := none
  extracted : Option String := none
deriving DecidableEq, Repr

/-- Observable outcome of `download_and_update_chromedriver`: printed
messages, final filesystem state, and the returned path string (empty on
failure). -/
structure RunResult where
  log : List Msg
  fs : FS
  result : String
deriving DecidableEq, Repr

/-- `download_and_update_chromedriver` (src/update_chromedriver.py:70-115):
resolve a driver via `fetch_closest_chromedriver_url`; on `not driver_url`
(None or empty string) report and return `''`; otherwise derive the
versioned zip and extraction paths, download (a request failure is caught
and reported, nothing written), write the zip, extract (`BadZipFile` and
generic exceptions are caught and reported, the zip stays), walk for the
first `chromedriver*` file; if found, remove the zip and return the path,
else report and return `''` leaving the zip in place. -/
def download_and_update_chromedriver (system pfx : String) (mf : ManifestFetch)
    (df : DriverFetch) (base_path : String) : RunResult :=
  let fr := fetch_closest_chromedriver_url system pfx mf
  match fr.2 with
  | none => ⟨fr.1 ++ [.noDriverFound pfx], {}, ""⟩
  | some (url, v) =>
    if url = "" then ⟨fr.1 ++ [.noDriverFound pfx], {}, ""⟩
    else
      match df with
      | .netError =>
        ⟨fr.1 ++ [.downloading v, .downloadError], {}, ""⟩
      | .ok ext =>
        match ext with
        | .badZip =>
          ⟨fr.1 ++ [.downloading v, .downloadOk v, .extracting v, .badZipError],
            { zip := some (zip_path base_path v) }, ""⟩
        | .ioError =>
          ⟨fr.1 ++ [.downloading v, .downloadOk v, .extracting v, .genericError],
            { zip := some (zip_path base_path v) }, ""⟩
        | .ok walk =>
          match findDriverFile (extract_dir base_path v) walk with
          | some p =>
            ⟨fr.1 ++ [.downloading v, .downloadOk v, .extracting v, .driverPath p],
              { zip := none, extracted := some (extract_dir base_path v) }, p⟩
          | none =>
            ⟨fr.1 ++ [.downloading v, .downloadOk v, .extracting v, .noExecutableFound],
              { zip := some (zip_path base_path v),
                extracted := some (extract_dir base_path v) }, ""⟩

/-- An entry satisfies the scan's match condition: its version string starts
with the prefix and it has a platform-matching chromedriver download. -/
def entryMatch (pfx platform_name : String) (e : VersionEntry) : Bool :=
  pyStartsWith e.version pfx && (findDownload platform_name e.chromedriver).isSome

/-- The manifest of the spec's lookup example: versions
`["128.0.1", "128.0.2", "127.9.9"]`, each with a linux64 download. -/
def demoManifest : Manifest :=
  ⟨[⟨"128.0.1", [⟨"linux64", "https://example/128.0.1.zip"⟩]⟩,
    ⟨"128.0.2", [⟨"linux64", "https://example/128.0.2.zip"⟩]⟩,
    ⟨"127.9.9", [⟨"linux64", "https://example/127.9.9.zip"⟩]⟩]⟩

/-! ## Helper lemmas -/

theorem listIsPrefix_iff (p s : List Char) :
    listIsPrefix p s = true ↔ ∃ t, s = p ++ t := by
  induction p generalizing s with
  | nil =>
    simp [listIsPrefix]
  | cons a as ih =>
    cases s with
    | nil =>
      simp [listIsPrefix]
    | cons b bs =>
      simp only [listIsPrefix, Bool.and_eq_true, beq_iff_eq, ih, List.cons_append,
        List.cons.injEq]
      constructor
      · rintro ⟨hab, t, ht⟩
        exact ⟨t, hab.symm, ht⟩
      · rintro ⟨t, hab, ht⟩
        exact ⟨hab.symm, t, ht⟩

theorem lookupDriver_eq_find (pfx tag : String) (vs : List VersionEntry) :
    lookupDriver pfx tag vs =
      (vs.find? (entryMatch pfx tag)).bind
        (fun e => (findDownload tag e.chromedriver).map (fun d => (d.url, e.version))) := by
  induction vs with
  | nil => rfl
  | cons e es ih =>
    cases hp : pyStartsWith e.version pfx with
    | true =>
      cases hd : findDownload tag e.chromedriver with
      | some d =>
        simp [lookupDriver, List.find?, entryMatch, hp, hd]
      | none =>
        simp [lookupDriver, List.find?, entryMatch, hp, hd, ih]
    | false =>
      simp [lookupDriver, List.find?, entryMatch, hp, ih]

theorem lookupDriver_eq_none (pfx tag : String) (vs : List VersionEntry)
    (h : ∀ e ∈ vs, entryMatch pfx tag e = false) :
    lookupDriver pfx tag vs = none := by
  induction vs with
  | nil => rfl
  | cons e es ih =>
    have he := h e (by simp)
    have hes : ∀ x ∈ es, entryMatch pfx tag x = false := fun x hx => h x (by simp [hx])
    cases hp : pyStartsWith e.version pfx with
    | true =>
      cases hd : findDownload tag e.chromedriver with
      | some d =>
        exfalso
        simp [entryMatch, hp, hd] at he
      | none =>
        simp [lookupDriver, hp, hd, ih hes]
    | false =>
      simp [lookupDriver, hp, ih hes]

theorem strAppend_assoc (a b c : String) : a ++ b ++ c = a ++ (b ++ c) := by
  cases a with
  | mk la =>
    cases b with
    | mk lb =>
      cases c with
      | mk lc =>
        show String.mk (la ++ lb ++ lc) = String.mk (la ++ (lb ++ lc))
        rw [List.append_assoc]

theorem slash_chromedriver_append (x : String) :
    "/" ++ ("chromedriver_" ++ x) = "/chromedriver_" ++ x := by
  rw [← strAppend_assoc]
  have h : ("/" : String) ++ "chromedriver_" = "/chromedriver_" := rfl
  rw [h]

theorem zip_path_eq (base_path v : String) :
    zip_path base_path v = base_path ++ "/chromedriver_" ++ v ++ ".zip" := by
  simp [zip_path, pathJoin, strAppend_assoc, slash_chromedriver_append]

theorem extract_dir_eq (base_path v : String) :
    extract_dir base_path v = base_path ++ "/chromedriver_" ++ v := by
  simp [extract_dir, pathJoin, strAppend_assoc, slash_chromedriver_append]

theorem find?_append_some {α : Type} (p : α → Bool) (l₁ l₂ : List α) (x : α)
    (h : l₁.find? p = some x) : (l₁ ++ l₂).find? p = some x := by
  induction l₁ with
  | nil => simp [List.find?] at h
  | cons a l ih =>
    cases hp : p a with
    | true =>
      simp only [List.find?, hp] at h
      simp only [List.cons_append, List.find?, hp]
      exact h
    | false =>
      simp only [List.find?, hp] at h
      simp only [List.cons_append, List.find?, hp]
      exact ih h

theorem find?_append_none {α : Type} (p : α → Bool) (l₁ l₂ : List α)
    (h : l₁.find? p = none) : (l₁ ++ l₂).find? p = l₂.find? p := by
  induction l₁ with
  | nil => rfl
  | cons a l ih =>
    cases hp : p a with
    | true =>
      simp only [List.find?, hp] at h
      exact absurd h (Option.some_ne_none a)
    | false =>
      simp only [List.find?, hp] at h
      simp only [List.cons_append, List.find?, hp]
      exact ih h

theorem find?_map_pair (root : String) (xs : List String) :
    (xs.map (fun x => (root, x))).find? (fun q => pyStartsWith q.2 "chromedriver")
      = (xs.find? (fun f => pyStartsWith f "chromedriver")).map (fun x => (root, x)) := by
  induction xs with
  | nil => rfl
  | cons a l ih =>
    cases hp : pyStartsWith a "chromedriver" with
    | true => simp [List.find?, hp]
    | false => simp [List.find?, hp, ih]

/-- All files seen by the walk, flattened in walk order as
(absolute root, file name) pairs. -/
def walkFiles (dir : String) : List WalkDir → List (String × String)
  | [] => []
  | w :: ws => w.files.map (fun f => (walkRoot dir w, f)) ++ walkFiles dir ws

theorem findDriverFile_eq_first (dir : String) (walk : List WalkDir) :
    findDriverFile dir walk =
      ((walkFiles dir walk).find? (fun q => pyStartsWith q.2 "chromedriver")).map
        (fun q => pathJoin q.1 q.2) := by
  induction walk with
  | nil => rfl
  | cons w ws ih =>
    cases hf : w.files.find? (fun f => pyStartsWith f "chromedriver") with
    | some f =>
      have h1 : (w.files.map (fun f => (walkRoot dir w, f))).find?
          (fun q => pyStartsWith q.2 "chromedriver") = some (walkRoot dir w, f) := by
        rw [find?_map_pair, hf]
        rfl
      simp only [walkFiles, findDriverFile, hf, find?_append_some _ _ _ _ h1]
      rfl
    | none =>
      have h1 : (w.files.map (fun f => (walkRoot dir w, f))).find?
          (fun q => pyStartsWith q.2 "chromedriver") = none := by
        rw [find?_map_pair, hf]
        rfl
      simp only [walkFiles, findDriverFile, hf, find?_append_none _ _ _ h1, ih]

/-! ## Claims -/

/-- C1: the manifest lookup returns the download url and version of the
first entry in manifest order whose version string starts with the prefix
and which has a chromedriver download whose platform field contains the
resolved platform tag (captured by `List.find?`, the first-match scan);
on the spec's example manifest `["128.0.1", "128.0.2", "127.9.9"]` with
prefix `"128"` it returns version `"128.0.1"`, not `"128.0.2"`. -/
theorem c1_lookup_first_match :
    (∀ (pfx tag : String) (vs : List VersionEntry),
      lookupDriver pfx tag vs =
        (vs.find? (entryMatch pfx tag)).bind
          (fun e => (findDownload tag e.chromedriver).map (fun d => (d.url, e.version))))
    ∧ lookupDriver "128" "linux64" demoManifest.versions
        = some ("https://example/128.0.1.zip", "128.0.1") :=
  ⟨lookupDriver_eq_find, by decide⟩

/-- C5: platform resolution is a pure function of the host OS identifier:
`Windows ↦ win32`, `Darwin ↦ mac-arm64`, `Linux ↦ linux64`, every other
identifier raises the unsupported-platform `RuntimeError`, and every
successful result is one of the three fixed tags. -/
theorem c5_platform_resolution :
    get_platform_name "Windows" = .ok "win32"
    ∧ get_platform_name "Darwin" = .ok "mac-arm64"
    ∧ get_platform_name "Linux" = .ok "linux64"
    ∧ (∀ s : String, s ≠ "Windows" → s ≠ "Darwin" → s ≠ "Linux" →
        get_platform_name s = .error (.runtimeError ("不支持的操作系统: " ++ s)))
    ∧ (∀ (s tag : String), get_platform_name s = .ok tag →
        tag = "win32" ∨ tag = "mac-arm64" ∨ tag = "linux64") := by
  refine ⟨rfl, rfl, rfl, ?_, ?_⟩
  · intro s h1 h2 h3
    simp [get_platform_name, h1, h2, h3]
  · intro s tag h
    unfold get_platform_name at h
    split_ifs at h <;> simp only [Except.ok.injEq] at h
    · exact Or.inl h.symm
    · exact Or.inr (Or.inl h.symm)
    · exact Or.inr (Or.inr h.symm)

theorem c5_platform_resolution_witness :
    get_platform_name "Haiku" = .error (.runtimeError ("不支持的操作系统: " ++ "Haiku"))
    ∧ ("linux64" = "win32" ∨ "linux64" = "mac-arm64" ∨ "linux64" = "linux64") :=
  ⟨c5_platform_resolution.2.2.2.1 "Haiku" (by decide) (by decide) (by decide),
   c5_platform_resolution.2.2.2.2 "Linux" "linux64" rfl⟩

/-- C9: version matching is raw character-for-character prefix matching with
no dot-boundary or numeric check: `pyStartsWith v pfx` holds exactly when
the character list of `v` begins with that of `pfx`, so the prefix `"12"`
matches version `"128.0.1"` just as it matches `"12.0.0"` in the lookup. -/
theorem c9_raw_prefix_matching :
    (∀ v pfx : String, pyStartsWith v pfx = true ↔ ∃ t, v.toList = pfx.toList ++ t)
    ∧ lookupDriver "12" "linux64" [⟨"128.0.1", [⟨"linux64", "u"⟩]⟩]
        = some ("u", "128.0.1")
    ∧ lookupDriver "12" "linux64" [⟨"12.0.0", [⟨"linux64", "u"⟩]⟩]
        = some ("u", "12.0.0") :=
  ⟨fun v pfx => listIsPrefix_iff pfx.toList v.toList, by decide, by decide⟩

/-- C7: when no manifest entry matches (no version starts with the prefix,
or no prefix-matching entry has a download for the resolved platform), the
lookup reports "not found" and returns `(None, None)`; no exception is
raised (the function returns normally). -/
theorem c7_no_match_returns_none :
    ∀ (system tag pfx : String) (m : Manifest),
      get_platform_name system = .ok tag →
      (∀ e ∈ m.versions, entryMatch pfx tag e = false) →
      fetch_closest_chromedriver_url system pfx (.ok m)
        = ([.platformName tag, .notFound], none) := by
  intro system tag pfx m hsys hm
  simp [fetch_closest_chromedriver_url, fetch_try, hsys,
    lookupDriver_eq_none pfx tag m.versions hm]

theorem c7_no_match_witness :
    fetch_closest_chromedriver_url "Linux" "129" (.ok demoManifest)
      = ([.platformName "linux64", .notFound], none) :=
  c7_no_match_returns_none "Linux" "linux64" "129" demoManifest rfl (by decide)

/-- C6: if the manifest GET fails or the response body is malformed JSON,
the lookup catches the error, reports it, and returns `(None, None)`, and
the overall driver-update call returns the empty string; both functions
return normally, so nothing propagates past the entry point. -/
theorem c6_manifest_fetch_failures :
    ∀ (system pfx : String) (df : DriverFetch) (base_path : String),
      fetch_closest_chromedriver_url system pfx .netError = ([.requestError], none)
      ∧ fetch_closest_chromedriver_url system pfx .badJson = ([.genericError], none)
      ∧ (download_and_update_chromedriver system pfx .netError df base_path).result = ""
      ∧ (download_and_update_chromedriver system pfx .netError df base_path).log
          = [.requestError, .noDriverFound pfx]
      ∧ (download_and_update_chromedriver system pfx .badJson df base_path).result = "" :=
  fun _ _ _ _ => ⟨rfl, rfl, rfl, rfl, rfl⟩

/-- C2 counterexample: on an unsupported host OS the platform-detection
`RuntimeError` is raised inside the lookup's `try` block but is caught by
its `except Exception` handler — it does not escape: the lookup returns
`([genericError], none)` normally and the top-level call returns the empty
string, contradicting the claim that the error is fatal and raised past the
top-level invocation. -/
theorem c2_platform_error_counterexample :
    fetch_try "FreeBSD" "128" (.ok demoManifest)
        = .error (.runtimeError ("不支持的操作系统: " ++ "FreeBSD"))
    ∧ fetch_closest_chromedriver_url "FreeBSD" "128" (.ok demoManifest)
        = ([.genericError], none)
    ∧ download_and_update_chromedriver "FreeBSD" "128" (.ok demoManifest)
        (.ok (.ok [⟨"", ["chromedriver"]⟩])) "/sd"
        = ⟨[.genericError, .noDriverFound "128"], {}, ""⟩ :=
  ⟨rfl, rfl, rfl⟩

/-- C2 (amended): when the host OS is not one of the three recognized
families, the platform-detection error raised inside the manifest lookup is
caught by the lookup's generic exception handler like every other non-fatal
error: the lookup reports a generic error and returns `(None, None)`, and
the top-level driver-update call reports failure and returns the empty
string — no exception escapes the top-level invocation. -/
theorem c2_amended_platform_error_caught :
    ∀ (system pfx : String) (m : Manifest) (df : DriverFetch) (base_path : String),
      system ≠ "Windows" → system ≠ "Darwin" → system ≠ "Linux" →
      fetch_try system pfx (.ok m)
          = .error (.runtimeError ("不支持的操作系统: " ++ system))
      ∧ fetch_closest_chromedriver_url system pfx (.ok m) = ([.genericError], none)
      ∧ (download_and_update_chromedriver system pfx (.ok m) df base_path).result = ""
      ∧ (download_and_update_chromedriver system pfx (.ok m) df base_path).log
          = [.genericError, .noDriverFound pfx] := by
  intro system pfx m df base_path h1 h2 h3
  have hg : get_platform_name system
      = .error (.runtimeError ("不支持的操作系统: " ++ system)) := by
    simp [get_platform_name, h1, h2, h3]
  have ht : fetch_try system pfx (.ok m)
      = .error (.runtimeError ("不支持的操作系统: " ++ system)) := by
    simp [fetch_try, hg]
  have hc : fetch_closest_chromedriver_url system pfx (.ok m) = ([.genericError], none) := by
    simp [fetch_closest_chromedriver_url, ht]
  refine ⟨ht, hc, ?_, ?_⟩ <;>
    simp [download_and_update_chromedriver, hc]

theorem c2_amended_witness :
    fetch_try "Solaris" "128" (.ok demoManifest)
        = .error (.runtimeError ("不支持的操作系统: " ++ "Solaris"))
    ∧ fetch_closest_chromedriver_url "Solaris" "128" (.ok demoManifest)
        = ([.genericError], none)
    ∧ (download_and_update_chromedriver "Solaris" "128" (.ok demoManifest)
        .netError "/sd").result = ""
    ∧ (download_and_update_chromedriver "Solaris" "128" (.ok demoManifest)
        .netError "/sd").log = [.genericError, .noDriverFound "128"] :=
  c2_amended_platform_error_caught "Solaris" "128" demoManifest .netError "/sd"
    (by decide) (by decide) (by decide)

/-- C3: on the success path the operation returns the path of the first file
in walk order whose name begins with `"chromedriver"` (characterized via
`List.find?` over the flattened walk), and the temporary zip archive no
longer exists on disk afterwards; on the spec's example archive extracting
to `["LICENSE.chromedriver", "chromedriver"]` the returned path ends in the
file named exactly `chromedriver`. -/
theorem c3_success_returns_first_executable_and_removes_zip :
    (∀ (dir : String) (walk : List WalkDir),
      findDriverFile dir walk
        = ((walkFiles dir walk).find? (fun q => pyStartsWith q.2 "chromedriver")).map
            (fun q => pathJoin q.1 q.2))
    ∧ (∀ (system pfx : String) (mf : ManifestFetch) (walk : List WalkDir)
        (base_path url v p : String),
        (fetch_closest_chromedriver_url system pfx mf).2 = some (url, v) →
        url ≠ "" →
        findDriverFile (extract_dir base_path v) walk = some p →
        (download_and_update_chromedriver system pfx mf (.ok (.ok walk)) base_path).result
            = p
        ∧ (download_and_update_chromedriver system pfx mf (.ok (.ok walk)) base_path).fs.zip
            = none)
    ∧ ((download_and_update_chromedriver "Linux" "128" (.ok demoManifest)
          (.ok (.ok [⟨"", ["LICENSE.chromedriver", "chromedriver"]⟩])) "/sd").result
        = "/sd/chromedriver_128.0.1/chromedriver"
      ∧ (download_and_update_chromedriver "Linux" "128" (.ok demoManifest)
          (.ok (.ok [⟨"", ["LICENSE.chromedriver", "chromedriver"]⟩])) "/sd").fs.zip
        = none) := by
  refine ⟨findDriverFile_eq_first, ?_, by decide, by decide⟩
  intro system pfx mf walk base_path url v p hfetch hurl hfind
  constructor <;>
    simp [download_and_update_chromedriver, hfetch, hurl, hfind]

theorem c3_success_witness :
    (download_and_update_chromedriver "Linux" "128" (.ok demoManifest)
        (.ok (.ok [⟨"sub", ["chromedriver"]⟩])) "/sd").result
      = "/sd/chromedriver_128.0.1/sub/chromedriver"
    ∧ (download_and_update_chromedriver "Linux" "128" (.ok demoManifest)
        (.ok (.ok [⟨"sub", ["chromedriver"]⟩])) "/sd").fs.zip = none :=
  c3_success_returns_first_executable_and_removes_zip.2.1 "Linux" "128"
    (.ok demoManifest) [⟨"sub", ["chromedriver"]⟩] "/sd"
    "https://example/128.0.1.zip" "128.0.1"
    "/sd/chromedriver_128.0.1/sub/chromedriver" (by decide) (by decide) (by decide)

/-- C4: when extraction succeeds but no file in the walk has a name starting
with `"chromedriver"`, the operation returns the empty string and the
downloaded zip file is NOT removed: it is still on disk at its versioned
path (the archive is deleted only on the branch where an executable is
found). -/
theorem c4_no_executable_keeps_zip :
    ∀ (system pfx : String) (mf : ManifestFetch) (walk : List WalkDir)
      (base_path url v : String),
      (fetch_closest_chromedriver_url system pfx mf).2 = some (url, v) →
      url ≠ "" →
      findDriverFile (extract_dir base_path v) walk = none →
      (download_and_update_chromedriver system pfx mf (.ok (.ok walk)) base_path).result
          = ""
      ∧ (download_and_update_chromedriver system pfx mf (.ok (.ok walk)) base_path).fs.zip
          = some (zip_path base_path v) := by
  intro system pfx mf walk base_path url v hfetch hurl hfind
  constructor <;>
    simp [download_and_update_chromedriver, hfetch, hurl, hfind]

theorem c4_no_executable_witness :
    (download_and_update_chromedriver "Linux" "128" (.ok demoManifest)
        (.ok (.ok [⟨"", ["LICENSE.txt"]⟩])) "/sd").result = ""
    ∧ (download_and_update_chromedriver "Linux" "128" (.ok demoManifest)
        (.ok (.ok [⟨"", ["LICENSE.txt"]⟩])) "/sd").fs.zip
      = some (zip_path "/sd" "128.0.1") :=
  c4_no_executable_keeps_zip "Linux" "128" (.ok demoManifest)
    [⟨"", ["LICENSE.txt"]⟩] "/sd" "https://example/128.0.1.zip" "128.0.1"
    (by decide) (by decide) (by decide)

/-- C8: the archive and extraction paths are derived deterministically from
the resolved version string and scoped to the script's directory:
`zip_path` is `<script_dir>/chromedriver_<v>.zip` and `extract_dir` is
`<script_dir>/chromedriver_<v>`, and whenever a driver is resolved the
operation's filesystem effects use exactly these paths. -/
theorem c8_versioned_paths :
    (∀ base_path v : String,
      zip_path base_path v = base_path ++ "/chromedriver_" ++ v ++ ".zip"
      ∧ extract_dir base_path v = base_path ++ "/chromedriver_" ++ v)
    ∧ (∀ (system pfx : String) (mf : ManifestFetch) (base_path url v : String),
        (fetch_closest_chromedriver_url system pfx mf).2 = some (url, v) →
        url ≠ "" →
        (download_and_update_chromedriver system pfx mf (.ok .badZip) base_path).fs.zip
            = some (base_path ++ "/chromedriver_" ++ v ++ ".zip")
        ∧ ∀ walk : List WalkDir,
            (download_and_update_chromedriver system pfx mf (.ok (.ok walk))
                base_path).fs.extracted
              = some (base_path ++ "/chromedriver_" ++ v)) := by
  refine ⟨fun base_path v => ⟨zip_path_eq base_path v, extract_dir_eq base_path v⟩, ?_⟩
  intro system pfx mf base_path url v hfetch hurl
  constructor
  · simp [download_and_update_chromedriver, hfetch, hurl, zip_path_eq]
  · intro walk
    have hext : (download_and_update_chromedriver system pfx mf (.ok (.ok walk))
        base_path).fs.extracted = some (extract_dir base_path v) := by
      cases hfind : findDriverFile (extract_dir base_path v) walk with
      | some p => simp [download_and_update_chromedriver, hfetch, hurl, hfind]
      | none => simp [download_and_update_chromedriver, hfetch, hurl, hfind]
    rw [hext, extract_dir_eq]

theorem c8_versioned_paths_witness :
    (zip_path "/sd" "128.0.1" = "/sd" ++ "/chromedriver_" ++ "128.0.1" ++ ".zip"
      ∧ extract_dir "/sd" "128.0.1" = "/sd" ++ "/chromedriver_" ++ "128.0.1")
    ∧ ((download_and_update_chromedriver "Linux" "128" (.ok demoManifest)
          (.ok .badZip) "/sd").fs.zip
        = some ("/sd" ++ "/chromedriver_" ++ "128.0.1" ++ ".zip")
      ∧ ∀ walk : List WalkDir,
          (download_and_update_chromedriver "Linux" "128" (.ok demoManifest)
              (.ok (.ok walk)) "/sd").fs.extracted
            = some ("/sd" ++ "/chromedriver_" ++ "128.0.1")) :=
  ⟨c8_versioned_paths.1 "/sd" "128.0.1",
   c8_versioned_paths.2 "Linux" "128" (.ok demoManifest) "/sd"
     "https://example/128.0.1.zip" "128.0.1" (by decide) (by decide)⟩

/-- C10: when the archive is downloaded and written but extraction then
fails — with a corrupt-archive error or with any other error — the
operation returns the empty string and the zip file remains on disk at its
versioned path: no error branch removes the archive. -/
theorem c10_error_branches_keep_zip :
    ∀ (system pfx : String) (mf : ManifestFetch) (base_path url v : String),
      (fetch_closest_chromedriver_url system pfx mf).2 = some (url, v) →
      url ≠ "" →
      ((download_and_update_chromedriver system pfx mf (.ok .badZip) base_path).result
          = ""
        ∧ (download_and_update_chromedriver system pfx mf (.ok .badZip) base_path).fs.zip
          = some (zip_path base_path v))
      ∧ ((download_and_update_chromedriver system pfx mf (.ok .ioError) base_path).result
          = ""
        ∧ (download_and_update_chromedriver system pfx mf (.ok .ioError) base_path).fs.zip
          = some (zip_path base_path v)) := by
  intro system pfx mf base_path url v hfetch hurl
  refine ⟨⟨?_, ?_⟩, ?_, ?_⟩ <;>
    simp [download_and_update_chromedriver, hfetch, hurl]

theorem c10_error_branches_witness :
    ((download_and_update_chromedriver "Linux" "128" (.ok demoManifest)
          (.ok .badZip) "/sd").result = ""
      ∧ (download_and_update_chromedriver "Linux" "128" (.ok demoManifest)
          (.ok .badZip) "/sd").fs.zip = some (zip_path "/sd" "128.0.1"))
    ∧ ((download_and_update_chromedriver "Linux" "128" (.ok demoManifest)
          (.ok .ioError) "/sd").result = ""
      ∧ (download_and_update_chromedriver "Linux" "128" (.ok demoManifest)
          (.ok .ioError) "/sd").fs.zip = some (zip_path "/sd" "128.0.1")) :=
  c10_error_branches_keep_zip "Linux" "128" (.ok demoManifest) "/sd"
    "https://example/128.0.1.zip" "128.0.1" (by decide) (by decide)

end UpdateChromedriver
